import Mathlib

/-!
Verification of the Arcus-Sheets reconciliation & sync engine against its
natural-language specification.  The Python sources are shallowly embedded:
sheet cell grids become lists of rows, monetary values become rationals,
fallible paths become `Option`/`Except`, and the scripted HTTP environment
of a fetch becomes an explicit list of responses.
-/

set_option autoImplicit false

namespace Arcus

/-- A spreadsheet cell as it appears in an in-memory row: either a string or
a numeric value (Python writes floats/ints into rows; `get_all_values`
returns strings).  Comparisons between a numeric cell and a string are
unequal, as in Python. -/
inductive Cell where
  | s (v : String)
  | n (q : ℚ)
deriving DecidableEq, Repr

abbrev Row := List Cell

/-- Model of the Python comparison `row[0] == str(order_id)`: a string cell
compares by string equality, a numeric cell is never equal to a string. -/
def cellEqStr (c : Cell) (id : String) : Bool :=
  match c with
  | .s t => t == id
  | .n _ => false

/-- Model of `len(row) > 0 and row[0] == str(order_id)` from the lookup loop
of `upsert_manual_override` (sheets_manager.py:988-993). -/
def matchesId (r : Row) (orderId : String) : Bool :=
  match r with
  | [] => false
  | c :: _ => cellEqStr c orderId

/-- The `row_data` assembled by `upsert_manual_override`
(sheets_manager.py:996-1005): omitted optional fields are written as the
empty string (`order_number or ""`, `psl or ""`, `notes or ""`,
`shipping_label_cost if shipping_label_cost is not None else ""`). -/
def overrideRowData (orderId : String) (orderNumber psl : Option String)
    (shippingLabelCost : Option ℚ) (notes : Option String)
    (now updatedBy : String) : Row :=
  [ .s orderId,
    .s (orderNumber.getD ""),
    .s (psl.getD ""),
    (match shippingLabelCost with | some q => .n q | none => .s ""),
    .s (notes.getD ""),
    .s now,
    .s updatedBy ]

/-- The find-first-matching-row-then-update-else-append logic of
`upsert_manual_override`, on the data rows (header excluded).  Returns the
new data rows, the 1-based position of the touched row within the data
rows, and the `is_new` flag. -/
def upsertRows (rows : List Row) (orderId : String) (rowData : Row) :
    List Row × Nat × Bool :=
  match rows with
  | [] => ([rowData], 1, true)
  | r :: rest =>
    if matchesId r orderId then (rowData :: rest, 1, false)
    else
      let out := upsertRows rest orderId rowData
      (r :: out.1, out.2.1 + 1, out.2.2)

/-- `SheetsManager.upsert_manual_override` (sheets_manager.py:976-1016) on
the full MANUAL_OVERRIDES grid (`all_data`, header row first).  The lookup
scans `all_data[1:]` for the first row with `row[0] == str(order_id)`;
on a hit the row is overwritten in place (`sheet.update`), otherwise
`row_data` is appended.  Returns the new grid, the sheet row number
(header is row 1) and `is_new`. -/
def upsert_manual_override (allData : List Row) (orderId : String)
    (orderNumber psl : Option String) (shippingLabelCost : Option ℚ)
    (notes : Option String) (now updatedBy : String) :
    List Row × Nat × Bool :=
  let rowData := overrideRowData orderId orderNumber psl shippingLabelCost notes now updatedBy
  match allData with
  | [] => ([rowData], 1, true)
  | header :: rows =>
    let out := upsertRows rows orderId rowData
    (header :: out.1, out.2.1 + 1, out.2.2)

/-- The Override Store invariant: among the data rows (everything after the
header) at most one row carries any given `order_id` in its first cell. -/
def atMostOnePerOrderId (allData : List Row) : Prop :=
  ∀ id : String, (allData.drop 1).countP (fun r => matchesId r id) ≤ 1

/-- A row can match at most one order id. -/
theorem matchesId_unique {r : Row} {a b : String}
    (ha : matchesId r a = true) (hb : matchesId r b = true) : a = b := by
  cases r with
  | nil => simp [matchesId] at ha
  | cons c rest =>
    cases c with
    | s t =>
      simp [matchesId, cellEqStr] at ha hb
      subst ha
      exact hb
    | n q => simp [matchesId, cellEqStr] at ha

/-- The freshly assembled `row_data` matches exactly its own order id. -/
theorem matchesId_overrideRowData (orderId id : String)
    (orderNumber psl : Option String) (cost : Option ℚ) (notes : Option String)
    (now updatedBy : String) :
    matchesId (overrideRowData orderId orderNumber psl cost notes now updatedBy) id
      = (orderId == id) := by
  simp [overrideRowData, matchesId, cellEqStr]

/-- Upserting never changes how many data rows match an id other than the
upserted one. -/
theorem upsertRows_countP_ne (rows : List Row) (orderId : String)
    (rowData : Row) (id : String)
    (hrow : matchesId rowData id = false) (hid : id ≠ orderId) :
    (upsertRows rows orderId rowData).1.countP (fun r => matchesId r id)
      = rows.countP (fun r => matchesId r id) := by
  induction rows with
  | nil => simp [upsertRows, List.countP_cons, hrow]
  | cons r rest ih =>
    by_cases hm : matchesId r orderId
    · have hrid : matchesId r id = false := by
        cases h : matchesId r id with
        | false => rfl
        | true => exact absurd (matchesId_unique h hm) hid
      simp [upsertRows, hm, List.countP_cons, hrow, hrid]
    · simp [upsertRows, hm, List.countP_cons, ih]

/-- After an upsert the upserted id matches at most one data row, provided
it matched at most one before. -/
theorem upsertRows_countP_self (rows : List Row) (orderId : String)
    (rowData : Row)
    (h : rows.countP (fun r => matchesId r orderId) ≤ 1) :
    (upsertRows rows orderId rowData).1.countP (fun r => matchesId r orderId) ≤ 1 := by
  induction rows with
  | nil =>
    simp [upsertRows, List.countP_cons]
    split <;> simp
  | cons r rest ih =>
    by_cases hm : matchesId r orderId
    · have hrest : rest.countP (fun r => matchesId r orderId) = 0 := by
        simp only [List.countP_cons, hm, if_true] at h
        omega
      simp [upsertRows, hm, List.countP_cons, hrest]
      split <;> simp
    · have hrest : rest.countP (fun r => matchesId r orderId) ≤ 1 := by
        simpa [List.countP_cons, hm] using h
      simp [upsertRows, hm, List.countP_cons, ih hrest]

/-- C9: `upsert_manual_override` preserves the invariant that the override
table holds at most one record per `order_id` — also for the empty
`order_id` the ops agent passes when an order number cannot be resolved
(ops_agent.py:170-192 calls with `order_id or ''`). -/
theorem upsert_preserves_at_most_one_per_order_id (allData : List Row)
    (orderId : String) (orderNumber psl : Option String)
    (cost : Option ℚ) (notes : Option String) (now updatedBy : String)
    (h : atMostOnePerOrderId allData) :
    atMostOnePerOrderId
      (upsert_manual_override allData orderId orderNumber psl cost notes now updatedBy).1 := by
  intro id
  cases allData with
  | nil =>
    simp [upsert_manual_override, List.countP_cons, matchesId_overrideRowData]
  | cons header rows =>
    have hrows := h id
    simp only [List.drop_one, List.tail_cons] at hrows
    by_cases hid : id = orderId
    · subst hid
      simpa [upsert_manual_override] using
        upsertRows_countP_self rows id
          (overrideRowData id orderNumber psl cost notes now updatedBy) hrows
    · have hrow : matchesId (overrideRowData orderId orderNumber psl cost notes now updatedBy) id = false := by
        simp [matchesId_overrideRowData]
        exact fun hc => hid hc.symm
      simpa [upsert_manual_override,
        upsertRows_countP_ne rows orderId _ id hrow hid] using hrows

/-- Witness for C9 at a concrete table: a header plus one existing override
row for order 999; upserting order 1001 keeps the invariant. -/
theorem upsert_preserves_at_most_one_per_order_id_witness :
    atMostOnePerOrderId
      (upsert_manual_override
        [[Cell.s "order_id", Cell.s "order_number", Cell.s "psl",
          Cell.s "shipping_label_cost", Cell.s "notes", Cell.s "updated_at", Cell.s "updated_by"],
         [Cell.s "999", Cell.s "1042", Cell.s "", Cell.s "", Cell.s "", Cell.s "t0", Cell.s "user"]]
        "1001" (some "1043") none (some 3) none "t1" "system").1 :=
  upsert_preserves_at_most_one_per_order_id _ "1001" (some "1043") none (some 3) none "t1" "system"
    (by
      intro id
      simp [List.countP_cons, matchesId, cellEqStr]
      split <;> simp)

/-- When no earlier data row matches and `r` matches, the upsert replaces
exactly `r` with `rowData` and reports an in-place update. -/
theorem upsertRows_found (pre post : List Row) (r : Row) (orderId : String)
    (rowData : Row)
    (hpre : ∀ x ∈ pre, matchesId x orderId = false)
    (hr : matchesId r orderId = true) :
    upsertRows (pre ++ r :: post) orderId rowData
      = (pre ++ rowData :: post, pre.length + 1, false) := by
  induction pre with
  | nil => simp [upsertRows, hr]
  | cons x xs ih =>
    have hx : matchesId x orderId = false := hpre x (by simp)
    have hxs : ∀ y ∈ xs, matchesId y orderId = false :=
      fun y hy => hpre y (by simp [hy])
    simp [upsertRows, hx, ih hxs]

/-- When no data row matches the order id, the upsert appends `rowData`. -/
theorem upsertRows_notFound (rows : List Row) (orderId : String)
    (rowData : Row)
    (h : ∀ x ∈ rows, matchesId x orderId = false) :
    upsertRows rows orderId rowData = (rows ++ [rowData], rows.length + 1, true) := by
  induction rows with
  | nil => simp [upsertRows]
  | cons x xs ih =>
    have hx : matchesId x orderId = false := h x (by simp)
    have hxs : ∀ y ∈ xs, matchesId y orderId = false :=
      fun y hy => h y (by simp [hy])
    simp [upsertRows, hx, ih hxs]

/-- C3, counterexample: the override table stores order number 1042 under a
different `order_id` (999); upserting with order id 555 and order number
1042 does not update that row — `upsert_manual_override` has no
`order_number` fallback — it appends a second row for the same order
number (grid grows from 2 to 3 rows, `is_new` is reported). -/
theorem upsert_no_order_number_fallback_counterexample :
    (upsert_manual_override
      [[Cell.s "order_id", Cell.s "order_number", Cell.s "psl",
        Cell.s "shipping_label_cost", Cell.s "notes", Cell.s "updated_at", Cell.s "updated_by"],
       [Cell.s "999", Cell.s "1042", Cell.s "", Cell.s "", Cell.s "", Cell.s "t0", Cell.s "user"]]
      "555" (some "1042") none (some 3) none "t1" "ops_agent").2.2 = true
    ∧ (upsert_manual_override
      [[Cell.s "order_id", Cell.s "order_number", Cell.s "psl",
        Cell.s "shipping_label_cost", Cell.s "notes", Cell.s "updated_at", Cell.s "updated_by"],
       [Cell.s "999", Cell.s "1042", Cell.s "", Cell.s "", Cell.s "", Cell.s "t0", Cell.s "user"]]
      "555" (some "1042") none (some 3) none "t1" "ops_agent").1.length = 3 :=
  ⟨rfl, rfl⟩

/-- C3, amended: the upsert lookup is single-tier.  It scans the data rows
only for a matching `order_id`; when none matches it appends a fresh row,
even when some data row carries the supplied `order_number` in its second
cell.  (The two-tier order_id-then-order_number lookup exists in
`get_manual_override`, not in `upsert_manual_override`.) -/
theorem upsert_appends_despite_matching_order_number (header : Row)
    (rows : List Row) (orderId orderNumber : String)
    (psl : Option String) (cost : Option ℚ) (notes : Option String)
    (now updatedBy : String)
    (hnum : ∃ x ∈ rows, x.get? 1 = some (Cell.s orderNumber))
    (hid : ∀ x ∈ rows, matchesId x orderId = false) :
    upsert_manual_override (header :: rows) orderId (some orderNumber) psl cost notes now updatedBy
      = (header :: (rows ++ [overrideRowData orderId (some orderNumber) psl cost notes now updatedBy]),
         rows.length + 2, true) := by
  simp [upsert_manual_override, upsertRows_notFound rows orderId _ hid]

/-- Witness for the amended C3 at the counterexample's table. -/
theorem upsert_appends_despite_matching_order_number_witness :
    upsert_manual_override
      [[Cell.s "order_id", Cell.s "order_number", Cell.s "psl",
        Cell.s "shipping_label_cost", Cell.s "notes", Cell.s "updated_at", Cell.s "updated_by"],
       [Cell.s "999", Cell.s "1042", Cell.s "", Cell.s "", Cell.s "", Cell.s "t0", Cell.s "user"]]
      "555" (some "1042") none (some 3) none "t1" "ops_agent"
    = ([[Cell.s "order_id", Cell.s "order_number", Cell.s "psl",
         Cell.s "shipping_label_cost", Cell.s "notes", Cell.s "updated_at", Cell.s "updated_by"],
        [Cell.s "999", Cell.s "1042", Cell.s "", Cell.s "", Cell.s "", Cell.s "t0", Cell.s "user"],
        [Cell.s "555", Cell.s "1042", Cell.s "", Cell.n 3, Cell.s "", Cell.s "t1", Cell.s "ops_agent"]],
       3, true) :=
  upsert_appends_despite_matching_order_number _ _ "555" "1042" none (some 3) none "t1" "ops_agent"
    ⟨[Cell.s "999", Cell.s "1042", Cell.s "", Cell.s "", Cell.s "", Cell.s "t0", Cell.s "user"],
      by simp, rfl⟩
    (by
      intro x hx
      simp at hx
      subst hx
      rfl)

/-- C10: upserting an existing `order_id` with the optional fields passed
as `None` rewrites the entire row: every omitted field becomes the empty
string, and none of the previously stored values survive. -/
theorem upsert_none_fields_blank_row (header : Row) (pre post : List Row)
    (r : Row) (orderId : String) (now updatedBy : String)
    (hpre : ∀ x ∈ pre, matchesId x orderId = false)
    (hr : matchesId r orderId = true) :
    (upsert_manual_override (header :: (pre ++ r :: post)) orderId
        none none none none now updatedBy).1
      = header :: (pre ++
          [Cell.s orderId, Cell.s "", Cell.s "", Cell.s "", Cell.s "",
           Cell.s now, Cell.s updatedBy] :: post) := by
  simp [upsert_manual_override, upsertRows_found pre post r orderId _ hpre hr,
    overrideRowData]

/-- Witness for C10: a populated override row for order 1001 loses its psl,
cost and notes when the upsert re-supplies none of them. -/
theorem upsert_none_fields_blank_row_witness :
    (upsert_manual_override
      [[Cell.s "order_id", Cell.s "order_number", Cell.s "psl",
        Cell.s "shipping_label_cost", Cell.s "notes", Cell.s "updated_at", Cell.s "updated_by"],
       [Cell.s "1001", Cell.s "1042", Cell.s "PSL-7", Cell.s "4.85", Cell.s "fragile", Cell.s "t0", Cell.s "user"]]
      "1001" none none none none "t1" "system").1
    = [[Cell.s "order_id", Cell.s "order_number", Cell.s "psl",
        Cell.s "shipping_label_cost", Cell.s "notes", Cell.s "updated_at", Cell.s "updated_by"],
       [Cell.s "1001", Cell.s "", Cell.s "", Cell.s "", Cell.s "", Cell.s "t1", Cell.s "system"]] :=
  upsert_none_fields_blank_row _ [] []
    [Cell.s "1001", Cell.s "1042", Cell.s "PSL-7", Cell.s "4.85", Cell.s "fragile", Cell.s "t0", Cell.s "user"]
    "1001" "t1" "system" (by intro x hx; simp at hx) rfl

/-! ## Rate-limited writer: `SheetsManager._retry_with_backoff` and
`batch_update_values` (sheets_manager.py:1275-1388).  A call to the wrapped
function is modelled by an attempt-indexed outcome; the wrapper returns the
result, the number of attempts made, and the list of backoff sleeps. -/

/-- Outcome of one invocation of the wrapped function: normal return or a
raised exception carrying its message string. -/
inductive CallResult (α : Type) where
  | ok (v : α)
  | err (msg : String)

/-- Substring membership on character lists, used to model Python's
`'429' in error_str`. -/
def infixOfAux (p : List Char) : List Char → Bool
  | [] => p.isEmpty
  | c :: cs => List.isPrefixOf p (c :: cs) || infixOfAux p cs

/-- Model of the Python substring test `pat in s`. -/
def hasSubstr (s pat : String) : Bool :=
  infixOfAux pat.toList s.toList

/-- `str.lower()`, written out over the character list so the kernel can
evaluate it. -/
def strToLower (s : String) : String :=
  String.mk (s.data.map Char.toLower)

/-- The retryability classification of `_retry_with_backoff`
(sheets_manager.py:1285-1291): lowercase the exception text and look for
the markers `429`, `rate_limit`, `resource_exhausted`, `quota`. -/
def isRateLimitError (msg : String) : Bool :=
  let e := strToLower msg
  hasSubstr e "429" || hasSubstr e "rate_limit" ||
    hasSubstr e "resource_exhausted" || hasSubstr e "quota"

/-- `backoff_time = (0.5 * (2 ** attempt)) + random.uniform(0, 0.1)`; the
jitter sample is passed in explicitly. -/
def backoffDelay (attempt : Nat) (jitter : ℚ) : ℚ :=
  1 / 2 * 2 ^ attempt + jitter

/-- The `for attempt in range(max_retries)` loop of `_retry_with_backoff`:
`remaining = max_retries - attempt` iterations are left.  A rate-limited
error with `attempt < max_retries - 1` (that is, `remaining ≥ 2`) sleeps
and retries; anything else re-raises.  Returns the outcome (`.ok none`
models falling off the loop when `max_retries = 0`, where Python returns
`None`), the number of attempts made, and the sleeps performed. -/
def retryGo {α : Type} (f : Nat → CallResult α) (jitter : Nat → ℚ) :
    Nat → Nat → List ℚ → Except String (Option α) × Nat × List ℚ
  | attempt, 0, sleeps => (.ok none, attempt, sleeps)
  | attempt, remaining + 1, sleeps =>
    match f attempt with
    | .ok v => (.ok (some v), attempt + 1, sleeps)
    | .err msg =>
      if isRateLimitError msg && remaining != 0 then
        retryGo f jitter (attempt + 1) remaining
          (sleeps ++ [backoffDelay attempt (jitter attempt)])
      else (.error msg, attempt + 1, sleeps)

/-- `SheetsManager._retry_with_backoff(func, max_retries)`
(sheets_manager.py:1275-1304). -/
def retry_with_backoff {α : Type} (f : Nat → CallResult α) (maxRetries : Nat)
    (jitter : Nat → ℚ) : Except String (Option α) × Nat × List ℚ :=
  retryGo f jitter 0 maxRetries []

/-- `SheetsManager.batch_update_values` (sheets_manager.py:1351-1388): runs
the batch write through `_retry_with_backoff` with the default
`max_retries = 5`; a propagated exception is caught and surfaced as
`False`, success as `True`. -/
def batch_update_values (f : Nat → CallResult Unit) (jitter : Nat → ℚ) : Bool :=
  match (retry_with_backoff f 5 jitter).1 with
  | .error _ => false
  | .ok _ => true

/-- C4: when every attempt raises a rate-limit error (HTTP 429 / quota
exceeded), the writer makes exactly 5 attempts, sleeping
`0.5 * 2^attempt + jitter` between consecutive attempts, then stops and
`batch_update_values` surfaces `False` to its caller instead of retrying
further or swallowing the error. -/
theorem write_retry_bounded_at_five (msgs : Nat → String) (jitter : Nat → ℚ)
    (hrl : ∀ i, isRateLimitError (msgs i) = true) :
    retry_with_backoff (fun i => CallResult.err (α := Unit) (msgs i)) 5 jitter
      = (.error (msgs 4), 5,
         [backoffDelay 0 (jitter 0), backoffDelay 1 (jitter 1),
          backoffDelay 2 (jitter 2), backoffDelay 3 (jitter 3)])
    ∧ batch_update_values (fun i => CallResult.err (msgs i)) jitter = false := by
  have h : retry_with_backoff (fun i => CallResult.err (α := Unit) (msgs i)) 5 jitter
      = (.error (msgs 4), 5,
         [backoffDelay 0 (jitter 0), backoffDelay 1 (jitter 1),
          backoffDelay 2 (jitter 2), backoffDelay 3 (jitter 3)]) := by
    simp [retry_with_backoff, retryGo, hrl 0, hrl 1, hrl 2, hrl 3, hrl 4]
  refine ⟨h, ?_⟩
  simp [batch_update_values, h]

/-- The concrete witness message is classified as retryable. -/
theorem isRateLimitError_quota_msg :
    isRateLimitError "APIError 429: Quota exceeded" = true := by
  decide

/-- Witness for C4 with a concrete quota-exceeded message and zero jitter. -/
theorem write_retry_bounded_at_five_witness :
    retry_with_backoff
        (fun _ => CallResult.err (α := Unit) "APIError 429: Quota exceeded") 5 (fun _ => 0)
      = (.error "APIError 429: Quota exceeded", 5,
         [backoffDelay 0 0, backoffDelay 1 0, backoffDelay 2 0, backoffDelay 3 0])
    ∧ batch_update_values (fun _ => CallResult.err "APIError 429: Quota exceeded") (fun _ => 0)
        = false :=
  write_retry_bounded_at_five (fun _ => "APIError 429: Quota exceeded") (fun _ => 0)
    (fun _ => isRateLimitError_quota_msg)

/-- C5, counterexample: a write failing with an HTTP 5xx server error on
the very first attempt (well below the 5-attempt cap) is not retried:
`_retry_with_backoff` classifies only 429/rate_limit/resource_exhausted/
quota texts as retryable, so the 500 is re-raised immediately after a
single attempt with no backoff sleep. -/
theorem retry_does_not_retry_5xx_counterexample :
    retry_with_backoff
        (fun _ => CallResult.err (α := Unit) "HTTP 500: Internal Server Error") 5 (fun _ => 0)
      = (.error "HTTP 500: Internal Server Error", 1, []) := by
  have h : isRateLimitError "HTTP 500: Internal Server Error" = false := by decide
  simp [retry_with_backoff, retryGo, h]

/-- C5, amended: only errors whose lowercased text contains one of the
rate-limit markers are retried; any other error — in particular a plain
HTTP 5xx server error — is re-raised on the first attempt with no backoff,
regardless of how much retry budget remains. -/
theorem non_rate_limit_error_raised_immediately {α : Type}
    (f : Nat → CallResult α) (maxRetries : Nat) (jitter : Nat → ℚ) (msg : String)
    (hmax : 0 < maxRetries) (hf : f 0 = .err msg)
    (hrl : isRateLimitError msg = false) :
    retry_with_backoff f maxRetries jitter = (.error msg, 1, []) := by
  obtain ⟨m, rfl⟩ : ∃ m, maxRetries = m + 1 := ⟨maxRetries - 1, by omega⟩
  simp [retry_with_backoff, retryGo, hf, hrl]

/-- Witness for the amended C5 at a concrete 503 error. -/
theorem non_rate_limit_error_raised_immediately_witness :
    retry_with_backoff
        (fun _ => CallResult.err (α := Unit) "HTTP 503: Service Unavailable") 5 (fun _ => 0)
      = (.error "HTTP 503: Service Unavailable", 1, []) :=
  non_rate_limit_error_raised_immediately _ 5 (fun _ => 0) _
    (by decide) rfl (by decide)

/-! ## Source client: `ShopifyClient._make_request`
(shopify_client.py:87-183).  The HTTP environment is scripted as a list of
responses, consumed one per request.  An exhausted script behaves like a
connection failure (a `requests.exceptions.RequestException`). -/

/-- One scripted HTTP response: a 429 with a Retry-After, a 5xx, a raised
`RequestException`, or a JSON page of items with or without a
`rel="next"` Link header. -/
inductive HttpResp where
  | rateLimited (retryAfter : Nat)
  | serverError (code : Nat)
  | reqError
  | page (items : List String) (hasNext : Bool)
deriving DecidableEq, Repr

/-- The only failure `_make_request` can propagate: the re-raised
`RequestException` after the retry budget is spent. -/
inductive FetchErr where
  | requestFailed
deriving DecidableEq, Repr

/-- The inner `while retries < max_retries` loop for one page, with
`left = max_retries - retries` attempts remaining.  A 429 sleeps
Retry-After and retries; a 5xx backs off and retries; a request exception
re-raises once the budget is spent; when the budget runs out on 429/5xx
the loop silently falls through (`.ok (none, _)`) and the pagination step
then finds no Link header on the failed response.  A successful page
breaks out with its items and whether a `rel="next"` link is present. -/
def attemptPage : List HttpResp → Nat → Except FetchErr (Option (List String × Bool) × List HttpResp)
  | script, 0 => .ok (none, script)
  | script, left + 1 =>
    match script with
    | [] => if left = 0 then .error .requestFailed else attemptPage [] left
    | resp :: rest =>
      match resp with
      | .rateLimited _ => attemptPage rest left
      | .serverError _ => attemptPage rest left
      | .reqError => if left = 0 then .error .requestFailed else attemptPage rest left
      | .page items hasNext => .ok (some (items, hasNext), rest)

/-- A successful page consumed at least one scripted response. -/
theorem attemptPage_ok_some_length (left : Nat) (script : List HttpResp)
    (p : List String × Bool) (rest : List HttpResp)
    (h : attemptPage script left = .ok (some p, rest)) :
    rest.length < script.length := by
  induction left generalizing script with
  | zero => simp [attemptPage] at h
  | succ left ih =>
    match script with
    | [] =>
      by_cases h0 : left = 0
      · simp [attemptPage, h0] at h
      · simp only [attemptPage, if_neg h0] at h
        have := ih [] h
        simp at this
    | .rateLimited t :: rest0 =>
      simp only [attemptPage] at h
      exact Nat.lt_trans (ih rest0 h) (by simp)
    | .serverError c :: rest0 =>
      simp only [attemptPage] at h
      exact Nat.lt_trans (ih rest0 h) (by simp)
    | .reqError :: rest0 =>
      by_cases h0 : left = 0
      · simp [attemptPage, h0] at h
      · simp only [attemptPage, if_neg h0] at h
        exact Nat.lt_trans (ih rest0 h) (by simp)
    | .page items hasNext :: rest0 =>
      simp only [attemptPage, Except.ok.injEq, Prod.mk.injEq] at h
      obtain ⟨-, h3⟩ := h
      subst h3
      simp

/-- The outer `while url` pagination loop of `_make_request`
(shopify_client.py:104-180): items of each successful page are appended to
`all_items`; the loop follows `rel="next"` links; a re-raised request
exception propagates, abandoning `all_items`. -/
def fetchPages (script : List HttpResp) (maxRetries : Nat) (acc : List String) :
    Except FetchErr (List String) :=
  match h : attemptPage script maxRetries with
  | .error e => .error e
  | .ok (none, _) => .ok acc
  | .ok (some (items, hasNext), rest) =>
    if hasNext then fetchPages rest maxRetries (acc ++ items)
    else .ok (acc ++ items)
termination_by script.length
decreasing_by exact attemptPage_ok_some_length maxRetries script _ rest h

/-- `ShopifyClient._make_request(endpoint, params, max_retries)` with its
default budget of 3 retries per page. -/
def make_request (script : List HttpResp) (maxRetries : Nat) :
    Except FetchErr (List String) :=
  fetchPages script maxRetries []

/-- Unfolding `fetchPages` when the page attempt propagates an error. -/
theorem fetchPages_error (script : List HttpResp) (maxRetries : Nat)
    (acc : List String) (e : FetchErr)
    (h : attemptPage script maxRetries = .error e) :
    fetchPages script maxRetries acc = .error e := by
  rw [fetchPages]
  split <;> simp_all

/-- Unfolding `fetchPages` across one successful page that links to a next
page. -/
theorem fetchPages_step (script rest : List HttpResp) (maxRetries : Nat)
    (acc items : List String)
    (h : attemptPage script maxRetries = .ok (some (items, true), rest)) :
    fetchPages script maxRetries acc = fetchPages rest maxRetries (acc ++ items) := by
  rw [fetchPages]
  split <;> simp_all

/-- Any number of successfully fetched pages followed by persistent request
errors ends in the re-raised exception, whatever has accumulated so far. -/
theorem fetchPages_pages_then_reqErrors (pages : List (List String))
    (acc : List String) :
    fetchPages (pages.map (fun items => HttpResp.page items true)
        ++ [HttpResp.reqError, HttpResp.reqError, HttpResp.reqError]) 3 acc
      = .error FetchErr.requestFailed := by
  induction pages generalizing acc with
  | nil =>
    exact fetchPages_error _ 3 acc FetchErr.requestFailed rfl
  | cons items pages ih =>
    have h1 : attemptPage
        ((items :: pages).map (fun items => HttpResp.page items true)
          ++ [HttpResp.reqError, HttpResp.reqError, HttpResp.reqError]) 3
        = .ok (some (items, true),
            pages.map (fun items => HttpResp.page items true)
              ++ [HttpResp.reqError, HttpResp.reqError, HttpResp.reqError]) := rfl
    rw [fetchPages_step _ _ 3 acc items h1, ih]

/-- C2, counterexample: one page of two orders is fetched successfully,
then every further request raises; `_make_request` re-raises after the
3-attempt budget and the caller receives only the exception — the two
already-fetched items are not returned with it (the bare `raise` at
shopify_client.py:164 abandons the local `all_items`). -/
theorem make_request_partial_pages_counterexample :
    make_request
        [HttpResp.page ["order_1", "order_2"] true,
         HttpResp.reqError, HttpResp.reqError, HttpResp.reqError] 3
      = .error FetchErr.requestFailed := by
  have h1 : attemptPage
      [HttpResp.page ["order_1", "order_2"] true,
       HttpResp.reqError, HttpResp.reqError, HttpResp.reqError] 3
      = .ok (some (["order_1", "order_2"], true),
          [HttpResp.reqError, HttpResp.reqError, HttpResp.reqError]) := rfl
  have h2 : attemptPage [HttpResp.reqError, HttpResp.reqError, HttpResp.reqError] 3
      = .error FetchErr.requestFailed := rfl
  rw [make_request, fetchPages_step _ _ 3 _ _ h1, fetchPages_error _ 3 _ _ h2]

/-- C2, amended: when the retry budget is exhausted by persistent request
errors, `_make_request` fails by re-raising the exception, and the partial
pages already fetched are discarded, not returned: for every prefix of
successful pages the caller receives only the bare error. -/
theorem make_request_exhausted_discards_partial_pages (pages : List (List String)) :
    make_request (pages.map (fun items => HttpResp.page items true)
        ++ [HttpResp.reqError, HttpResp.reqError, HttpResp.reqError]) 3
      = .error FetchErr.requestFailed :=
  fetchPages_pages_then_reqErrors pages []

/-! ## Orders sync: `SimpleOrdersSync` (simple_orders_sync.py).  The ORDERS
grid is a list of rows; formatting, formulas and the summary message do not
affect the synced cell values modelled here (formula fills touch only
columns I/L of rows 2+, which the sync writes as placeholders). -/

/-- `ORDERS_HEADERS` (simple_orders_sync.py:19-36). -/
def ORDERS_HEADERS : List String :=
  ["Order #", "Date", "Customer", "Email", "Product", "Variant/Size",
   "Qty", "Unit Price", "Revenue", "Unit Cost", "Shipping Label Cost",
   "Profit", "PSL", "Notes", "Shopify Payout", "Fulfillment Status"]

/-- The header row as written to the sheet. -/
def ordersHeaderRow : Row := ORDERS_HEADERS.map Cell.s

/-- One Shopify line item as read by the sync loop: `title`,
`variant_title` (may be absent), `quantity` (`item.get('quantity', 1)`
resolved by the caller), and `price` (`none` models a missing or
unparseable price, which `float(...)`-with-except turns into 0). -/
structure LineItem where
  title : String
  variant_title : Option String
  quantity : Int
  price : Option ℚ
deriving DecidableEq, Repr

/-- One Shopify order as consumed by `sync_orders`
(simple_orders_sync.py:138-207).  The customer sub-dictionary is read with
empty-string defaults, so it is flattened into three string fields. -/
structure ShopifyOrder where
  order_number : Option String
  name : Option String
  created_at : String
  customer_first_name : String
  customer_last_name : String
  customer_email : String
  fulfillment_status : Option String
  total_price : String
  line_items : List LineItem
deriving DecidableEq, Repr

/-- `order.get('order_number', order.get('name', ''))`. -/
def orderNumberOf (o : ShopifyOrder) : String :=
  o.order_number.getD (o.name.getD "")

/-- The date string of the row: ISO `created_at` reduced to its date part.
On a well-formed ISO timestamp `fromisoformat(...).strftime('%Y-%m-%d')`
is the first 10 characters, and the except-branch fallback is
`created_at[:10] if len(created_at) >= 10 else created_at`. -/
def dateStrOf (o : ShopifyOrder) : String :=
  if o.created_at = "" then "" else (o.created_at.take 10)

/-- `f"{first_name} {last_name}".strip() or 'Guest'`. -/
def customerNameOf (o : ShopifyOrder) : String :=
  let full := (o.customer_first_name ++ " " ++ o.customer_last_name).trim
  if full = "" then "Guest" else full

/-- `order.get('fulfillment_status') or 'unfulfilled'`. -/
def fulfillmentStatusOf (o : ShopifyOrder) : String :=
  match o.fulfillment_status with
  | none => "unfulfilled"
  | some s => if s = "" then "unfulfilled" else s

/-- One emitted ORDERS row (simple_orders_sync.py:189-206).  The Shopify
payout cell is written only on an order's first line item: it is blanked
when the previous emitted row carries the same order number
(`total_price if len(rows) == 0 or rows[-1][0] != order_number else ''`). -/
def buildRow (unitCost : ℚ) (prevRows : List Row) (o : ShopifyOrder)
    (item : LineItem) : Row :=
  let orderNumber := orderNumberOf o
  let payout : Cell :=
    match prevRows.getLast? with
    | none => .s o.total_price
    | some r => if r.head? = some (Cell.s orderNumber) then .s "" else .s o.total_price
  [ .s orderNumber,
    .s (dateStrOf o),
    .s (customerNameOf o),
    .s o.customer_email,
    .s item.title,
    .s (item.variant_title.getD ""),
    .n (item.quantity : ℚ),
    .n (item.price.getD 0),
    .s "",
    .n unitCost,
    .s "",
    .s "",
    .s "",
    .s "",
    payout,
    .s (fulfillmentStatusOf o) ]

/-- The body of `for order in orders` (simple_orders_sync.py:138-211) on
the `(rows, skipped_orders)` state: an order without line items is counted
as skipped and emits nothing; otherwise each line item appends one row. -/
def processOrder (unitCost : ℚ) (acc : List Row × Nat) (o : ShopifyOrder) :
    List Row × Nat :=
  if o.line_items.isEmpty then (acc.1, acc.2 + 1)
  else
    (o.line_items.foldl (fun rows item => rows ++ [buildRow unitCost rows o item]) acc.1,
     acc.2)

/-- The whole row-construction loop of `sync_orders`: fold the orders over
an initially empty `(rows, skipped)` state. -/
def buildRows (unitCost : ℚ) (orders : List ShopifyOrder) : List Row × Nat :=
  orders.foldl (processOrder unitCost) ([], 0)

/-- `SimpleOrdersSync.init_orders_apply` (simple_orders_sync.py:55-98):
clear the ORDERS grid and write `ORDERS_HEADERS` into row 1 (the further
steps are formatting and formula fills on rows 2+). -/
def init_orders_apply : List Row :=
  [ordersHeaderRow]

/-- `SimpleOrdersSync.sync_orders` (simple_orders_sync.py:100-237) on the
destination grid: check the existing header row against `ORDERS_HEADERS`
and re-initialize on mismatch; fetch orders; build rows; clear rows 2+ and
write the built rows from A2. -/
def sync_orders (sheet : List Row) (orders : List ShopifyOrder)
    (unitCost : ℚ) : List Row :=
  let sheet1 := if sheet.head? = some ordersHeaderRow then sheet else init_orders_apply
  if orders.isEmpty then sheet1
  else
    let built := buildRows unitCost orders
    if built.1.isEmpty then sheet1
    else sheet1.take 1 ++ built.1

/-- After any sync run the header row of the destination equals the
expected ORDERS schema. -/
theorem sync_orders_head (sheet : List Row) (orders : List ShopifyOrder)
    (unitCost : ℚ) :
    (sync_orders sheet orders unitCost).head? = some ordersHeaderRow := by
  by_cases h : sheet.head? = some ordersHeaderRow
  · cases sheet with
    | nil => simp at h
    | cons r t =>
      simp only [List.head?_cons, Option.some.injEq] at h
      subst h
      simp only [sync_orders, List.head?_cons, if_pos rfl]
      split
      · simp
      · split <;> simp
  · simp only [sync_orders, if_neg h, init_orders_apply]
    split
    · simp
    · split <;> simp

/-- C6: `sync_orders` verifies the destination's header row against the
expected ORDERS schema before writing data rows, re-initializing via
`init_orders_apply` on any mismatch (missing, corrupted or reordered
headers), so the header row after the run always equals `ORDERS_HEADERS`. -/
theorem sync_orders_header_integrity (sheet : List Row)
    (orders : List ShopifyOrder) (unitCost : ℚ) :
    (sync_orders sheet orders unitCost).head? = some ordersHeaderRow :=
  sync_orders_head sheet orders unitCost

/-- Every row built for a line item of `o` carries `o`'s order number in
its first cell, whatever the payout dedup state. -/
theorem buildRow_head (unitCost : ℚ) (prevRows : List Row) (o : ShopifyOrder)
    (item : LineItem) :
    (buildRow unitCost prevRows o item).head? = some (Cell.s (orderNumberOf o)) := by
  simp only [buildRow]
  rfl

/-- First cells of the rows appended by one order's line-item loop. -/
theorem lineItems_fold_heads (unitCost : ℚ) (o : ShopifyOrder)
    (items : List LineItem) (acc : List Row) :
    ((items.foldl (fun rows item => rows ++ [buildRow unitCost rows o item]) acc).map
        (fun r => r.head?))
      = acc.map (fun r => r.head?)
        ++ items.map (fun _ => some (Cell.s (orderNumberOf o))) := by
  induction items generalizing acc with
  | nil => simp
  | cons it its ih =>
    simp only [List.foldl_cons, ih, List.map_append, List.map_cons, List.map_nil,
      buildRow_head, List.map]
    simp

/-- First cells of the rows accumulated by the order loop, from any start
state. -/
theorem ordersFold_heads (unitCost : ℚ) (orders : List ShopifyOrder)
    (acc : List Row × Nat) :
    ((orders.foldl (processOrder unitCost) acc).1.map (fun r => r.head?))
      = acc.1.map (fun r => r.head?)
        ++ orders.flatMap (fun o =>
            if o.line_items.isEmpty then []
            else o.line_items.map (fun _ => some (Cell.s (orderNumberOf o)))) := by
  induction orders generalizing acc with
  | nil => simp
  | cons o os ih =>
    by_cases hο : o.line_items.isEmpty
    · have hnil : o.line_items = [] := List.isEmpty_iff.mp hο
      simp [List.foldl_cons, ih, processOrder, hο, hnil]
    · have hne : o.line_items ≠ [] := by
        simpa [List.isEmpty_iff] using hο
      simp only [List.foldl_cons, ih, processOrder, hο, if_false, Bool.false_eq_true,
        List.flatMap_cons, lineItems_fold_heads]
      simp [hne]

/-- The grid used for data writes always starts with the expected header
row, whether the existing sheet passed the check or was re-initialized. -/
theorem sync_sheet1_take (sheet : List Row) :
    ((if sheet.head? = some ordersHeaderRow then sheet else init_orders_apply).take 1)
      = [ordersHeaderRow] := by
  by_cases h : sheet.head? = some ordersHeaderRow
  · cases sheet with
    | nil => simp at h
    | cons r t =>
      simp only [List.head?_cons, Option.some.injEq] at h
      subst h
      simp
  · simp [h, init_orders_apply]

/-- Closed form of a sync run that actually writes data rows: the grid
becomes the expected header followed by the built rows. -/
theorem sync_orders_closed_form (sheet : List Row) (orders : List ShopifyOrder)
    (unitCost : ℚ) (ho : orders.isEmpty = false)
    (hb : (buildRows unitCost orders).1.isEmpty = false) :
    sync_orders sheet orders unitCost
      = ordersHeaderRow :: (buildRows unitCost orders).1 := by
  simp only [sync_orders, ho, hb, Bool.false_eq_true, if_false]
  rw [sync_sheet1_take sheet]
  simp

/-- C7: the row-building step of `sync_orders` is a pure function of the
fetched order sequence — re-running the whole sync on its own output with
the same orders reproduces the grid exactly — and rows are emitted in the
stable order of the raw record sequence: the first cells of the built rows
are precisely the order numbers of the raw orders, one per line item, in
raw order (orders without line items are skipped). -/
theorem sync_rows_stable_and_idempotent (sheet : List Row)
    (orders : List ShopifyOrder) (unitCost : ℚ) :
    sync_orders (sync_orders sheet orders unitCost) orders unitCost
        = sync_orders sheet orders unitCost
    ∧ (buildRows unitCost orders).1.map (fun r => r.head?)
        = orders.flatMap (fun o =>
            if o.line_items.isEmpty then []
            else o.line_items.map (fun _ => some (Cell.s (orderNumberOf o)))) := by
  refine ⟨?_, ordersFold_heads unitCost orders ([], 0)⟩
  have hhead := sync_orders_head sheet orders unitCost
  set T := sync_orders sheet orders unitCost with hT
  cases ho : orders.isEmpty with
  | true =>
    simp only [sync_orders, ho, if_true]
    rw [if_pos hhead]
  | false =>
    cases hb : (buildRows unitCost orders).1.isEmpty with
    | true =>
      simp only [sync_orders, ho, hb, Bool.false_eq_true, if_false, if_true]
      rw [if_pos hhead]
    | false =>
      rw [sync_orders_closed_form T orders unitCost ho hb, hT,
        sync_orders_closed_form sheet orders unitCost ho hb]

/-! ## Metrics aggregator: `calculate_and_update_metrics`
(metrics_calculator.py:44-117).  The ORDERS grid arrives as strings
(`get_all_values`), so numeric cells go through Python's
`str(...).replace(...).strip()` then `float(...)`; any conversion failure
is swallowed by `except: pass` and contributes nothing. -/

/-- Python `str.strip()`: drop whitespace from both ends, written over the
character list so the kernel can evaluate it. -/
def pyStrip (s : String) : String :=
  String.mk
    (((s.data.dropWhile Char.isWhitespace).reverse.dropWhile Char.isWhitespace).reverse)

/-- `str(cell).replace('$', '').replace(',', '').strip()`. -/
def stripMoneyChars (s : String) : String :=
  pyStrip (String.mk (s.data.filter (fun c => !(c == '$' || c == ','))))

/-- `str(cell).replace(',', '').strip()`. -/
def stripCommas (s : String) : String :=
  pyStrip (String.mk (s.data.filter (fun c => !(c == ','))))

/-- Numeric value of a digit run. -/
def digitsVal (cs : List Char) : ℕ :=
  cs.foldl (fun n c => n * 10 + (c.toNat - 48)) 0

/-- `float(...)` on the plain decimal literals that occur in sheet cells:
optional sign, digits, optional decimal point.  Anything else (also the
exotic float syntaxes that cannot appear in these cells) is `none`,
modelling the `ValueError` swallowed by the calculator. -/
def parseFloatLit (s : String) : Option ℚ :=
  let (sign, body) : ℚ × List Char :=
    match s.data with
    | '-' :: rest => (-1, rest)
    | '+' :: rest => (1, rest)
    | cs => (1, cs)
  let intPart := body.takeWhile (fun c => c ≠ '.')
  let rest := body.dropWhile (fun c => c ≠ '.')
  match rest with
  | [] =>
    if intPart ≠ [] ∧ intPart.all (fun c => c.isDigit) then
      some (sign * (digitsVal intPart : ℚ))
    else none
  | _ :: frac =>
    if (intPart ≠ [] ∨ frac ≠ []) ∧ intPart.all (fun c => c.isDigit)
        ∧ frac.all (fun c => c.isDigit) then
      some (sign * ((digitsVal intPart : ℚ) + (digitsVal frac : ℚ) / 10 ^ frac.length))
    else none

/-- The revenue/cost cell pipeline: strip `$` and `,`, skip the empty
string (`if revenue_val:`), convert. -/
def parseMoneyCell (s : String) : Option ℚ :=
  let v := stripMoneyChars s
  if v = "" then none else parseFloatLit v

/-- The quantity cell pipeline: strip `,`, skip empty, convert. -/
def parseQtyCell (s : String) : Option ℚ :=
  let v := stripCommas s
  if v = "" then none else parseFloatLit v

/-- `headers.index(name)` wrapped in try/except ValueError. -/
def colIdx (headers : List String) (name : String) : Option Nat :=
  headers.findIdx? (fun h => h == name)

/-- `headers.index("Total Revenue") if "Total Revenue" in headers else
headers.index("Sold Price")`, with ValueError giving `None`. -/
def revenueColOf (headers : List String) : Option Nat :=
  match colIdx headers "Total Revenue" with
  | some i => some i
  | none => colIdx headers "Sold Price"

/-- The revenue accumulation of one row (metrics_calculator.py:71-78).
The Python truthiness test `if revenue_col and len(row) > revenue_col:`
treats a column at index 0 as missing. -/
def revTerm (revCol : Option Nat) (row : List String) (acc : ℚ) : ℚ :=
  match revCol with
  | some c =>
    if c ≠ 0 ∧ c < row.length then
      match parseMoneyCell (row.getD c "") with
      | some q => acc + q
      | none => acc
    else acc
  | none => acc

/-- The units accumulation of one row (metrics_calculator.py:80-87), with
the same truthiness behaviour on the quantity column. -/
def unitsTerm (qtyCol : Option Nat) (row : List String) (acc : ℚ) : ℚ :=
  match qtyCol with
  | some c =>
    if c ≠ 0 ∧ c < row.length then
      match parseQtyCell (row.getD c "") with
      | some q => acc + q
      | none => acc
    else acc
  | none => acc

/-- The COGS accumulation of one row (metrics_calculator.py:89-97):
`if unit_cost_col and quantity_col and len(row) > max(...)`, then
`float(cost) * float(qty)` when both cells convert. -/
def cogsTerm (costCol qtyCol : Option Nat) (row : List String) (acc : ℚ) : ℚ :=
  match costCol, qtyCol with
  | some cc, some qc =>
    if cc ≠ 0 ∧ qc ≠ 0 ∧ max cc qc < row.length then
      match parseMoneyCell (row.getD cc ""), parseQtyCell (row.getD qc "") with
      | some a, some b => acc + a * b
      | _, _ => acc
    else acc
  | _, _ => acc

/-- The per-row accumulation of `(total_revenue, total_units, total_cogs)`
over the `for row in orders_data[1:]` loop, guarded by `if len(row) > 0`. -/
def rowStep (revCol qtyCol costCol : Option Nat) (acc : ℚ × ℚ × ℚ)
    (row : List String) : ℚ × ℚ × ℚ :=
  if 0 < row.length then
    (revTerm revCol row acc.1, unitsTerm qtyCol row acc.2.1,
     cogsTerm costCol qtyCol row acc.2.2)
  else acc

/-- The ORDERS pass of the metrics calculator: resolve the three column
indices from the header row, then fold the data rows
(`if orders_data and len(orders_data) > 1:`). -/
def calcOrderSums (ordersData : List (List String)) : ℚ × ℚ × ℚ :=
  match ordersData with
  | [] => (0, 0, 0)
  | headers :: dataRows =>
    if dataRows.isEmpty then (0, 0, 0)
    else
      dataRows.foldl
        (rowStep (revenueColOf headers) (colIdx headers "Quantity")
          (colIdx headers "Unit Cost"))
        (0, 0, 0)

/-- One record of `get_all_manual_overrides`: the `order_id` cell plus the
`shipping_label_cost` already converted to float (`none` when blank or
unconvertible). -/
structure OverrideRec where
  order_id : String
  shipping_label_cost : Option ℚ
deriving DecidableEq, Repr

/-- `for override in manual_overrides: if override.get('shipping_label_cost'):
total += float(...)` (metrics_calculator.py:100-105).  Python truthiness
skips `None` and `0.0` alike. -/
def shippingSum (overrides : List OverrideRec) : ℚ :=
  overrides.foldl
    (fun acc o =>
      match o.shipping_label_cost with
      | some q => if q = 0 then acc else acc + q
      | none => acc)
    0

/-- The monetary metrics returned by `calculate_and_update_metrics`. -/
structure MetricsResult where
  total_revenue : ℚ
  total_units : ℚ
  total_cogs : ℚ
  total_shipping_label_cost : ℚ
  gross_profit : ℚ
  contribution_profit : ℚ
deriving DecidableEq, Repr

/-- `calculate_and_update_metrics` (metrics_calculator.py:44-117),
restricted to the metrics derived from ORDERS and MANUAL_OVERRIDES:
`gross_profit = total_revenue - total_cogs` and `contribution_profit =
total_revenue - total_cogs - total_shipping_label_cost`, with the shipping
sum drawn from the override records only. -/
def calculate_and_update_metrics (ordersData : List (List String))
    (overrides : List OverrideRec) : MetricsResult :=
  let sums := calcOrderSums ordersData
  let ship := shippingSum overrides
  { total_revenue := sums.1,
    total_units := sums.2.1,
    total_cogs := sums.2.2,
    total_shipping_label_cost := ship,
    gross_profit := sums.1 - sums.2.2,
    contribution_profit := sums.1 - sums.2.2 - ship }

/-- C1, counterexample: a table carrying exactly the spec scenario's values
(`Total Revenue` cells 40 and 15, quantities 2 and 1, unit costs 5) but
with the revenue column at index 0.  The Python truthiness test
`if revenue_col and len(row) > revenue_col:` treats column 0 as missing,
so the recomputation returns `total_revenue = 0`, not 55. -/
theorem metrics_scenario_counterexample :
    (calculate_and_update_metrics
      [["Total Revenue", "Quantity", "Unit Cost"],
       ["40", "2", "5"],
       ["15", "1", "5"]]
      [⟨"101", some 3⟩]).total_revenue = 0
    ∧ (calculate_and_update_metrics
      [["Total Revenue", "Quantity", "Unit Cost"],
       ["40", "2", "5"],
       ["15", "1", "5"]]
      [⟨"101", some 3⟩]).total_revenue ≠ 55 := by
  have h : (calculate_and_update_metrics
      [["Total Revenue", "Quantity", "Unit Cost"],
       ["40", "2", "5"],
       ["15", "1", "5"]]
      [⟨"101", some 3⟩]).total_revenue = 0 := by
    simp [calculate_and_update_metrics, calcOrderSums, revenueColOf, colIdx,
      rowStep, revTerm, List.findIdx?]
  exact ⟨h, by rw [h]; norm_num⟩

/-- C1, amended: on every orders table matching the spec scenario whose
revenue, quantity and unit-cost columns all sit at nonzero indices (the
code's truthiness tests skip a column at index 0), with one override
carrying shipping_label_cost 3, the recomputation returns
total_revenue 55, total_cogs 15, gross_profit 40,
total_shipping_label_cost 3 and contribution_profit 37, the shipping sum
coming from the override records only (the orders table cells outside the
three resolved columns are arbitrary). -/
theorem metrics_scenario_amended (headers row1 row2 : List String)
    (o : OverrideRec) (r q u : Nat)
    (hr : revenueColOf headers = some r) (hr0 : r ≠ 0)
    (hq : colIdx headers "Quantity" = some q) (hq0 : q ≠ 0)
    (hu : colIdx headers "Unit Cost" = some u) (hu0 : u ≠ 0)
    (hl1r : r < row1.length) (hl1q : q < row1.length) (hl1u : u < row1.length)
    (hl2r : r < row2.length) (hl2q : q < row2.length) (hl2u : u < row2.length)
    (h1r : parseMoneyCell (row1.getD r "") = some 40)
    (h1q : parseQtyCell (row1.getD q "") = some 2)
    (h1u : parseMoneyCell (row1.getD u "") = some 5)
    (h2r : parseMoneyCell (row2.getD r "") = some 15)
    (h2q : parseQtyCell (row2.getD q "") = some 1)
    (h2u : parseMoneyCell (row2.getD u "") = some 5)
    (ho : o.shipping_label_cost = some 3) :
    calculate_and_update_metrics [headers, row1, row2] [o]
      = { total_revenue := 55, total_units := 3, total_cogs := 15,
          total_shipping_label_cost := 3, gross_profit := 40,
          contribution_profit := 37 } := by
  have hp1 : 0 < row1.length := by omega
  have hp2 : 0 < row2.length := by omega
  have hm1 : max u q < row1.length := by omega
  have hm2 : max u q < row2.length := by omega
  have hstep1 : rowStep (some r) (some q) (some u) (0, 0, 0) row1 = (40, 2, 10) := by
    rw [rowStep, if_pos hp1]
    rw [revTerm, if_pos ⟨hr0, hl1r⟩, h1r]
    rw [unitsTerm, if_pos ⟨hq0, hl1q⟩, h1q]
    rw [cogsTerm, if_pos ⟨hu0, hq0, hm1⟩, h1u, h1q]
    norm_num
  have hstep2 : rowStep (some r) (some q) (some u) (40, 2, 10) row2 = (55, 3, 15) := by
    rw [rowStep, if_pos hp2]
    rw [revTerm, if_pos ⟨hr0, hl2r⟩, h2r]
    rw [unitsTerm, if_pos ⟨hq0, hl2q⟩, h2q]
    rw [cogsTerm, if_pos ⟨hu0, hq0, hm2⟩, h2u, h2q]
    norm_num
  simp only [calculate_and_update_metrics, calcOrderSums, List.isEmpty_cons,
    Bool.false_eq_true, if_false, List.foldl_cons, List.foldl_nil,
    hr, hq, hu, hstep1, hstep2, shippingSum, ho]
  norm_num

/-- Witness for the amended C1 on a concrete four-column table. -/
theorem metrics_scenario_amended_witness :
    calculate_and_update_metrics
      [["Order ID", "Total Revenue", "Quantity", "Unit Cost"],
       ["101", "40", "2", "5"],
       ["102", "15", "1", "5"]]
      [⟨"101", some 3⟩]
      = { total_revenue := 55, total_units := 3, total_cogs := 15,
          total_shipping_label_cost := 3, gross_profit := 40,
          contribution_profit := 37 } :=
  metrics_scenario_amended
    ["Order ID", "Total Revenue", "Quantity", "Unit Cost"]
    ["101", "40", "2", "5"] ["102", "15", "1", "5"]
    ⟨"101", some 3⟩ 1 2 3
    (by simp [revenueColOf, colIdx, List.findIdx?]) (by decide)
    (by simp [colIdx, List.findIdx?]) (by decide)
    (by simp [colIdx, List.findIdx?]) (by decide)
    (by decide) (by decide) (by decide) (by decide) (by decide) (by decide)
    (by simp [parseMoneyCell, stripMoneyChars, pyStrip, parseFloatLit, digitsVal])
    (by simp [parseQtyCell, stripCommas, pyStrip, parseFloatLit, digitsVal])
    (by simp [parseMoneyCell, stripMoneyChars, pyStrip, parseFloatLit, digitsVal])
    (by simp [parseMoneyCell, stripMoneyChars, pyStrip, parseFloatLit, digitsVal])
    (by simp [parseQtyCell, stripCommas, pyStrip, parseFloatLit, digitsVal])
    (by simp [parseMoneyCell, stripMoneyChars, pyStrip, parseFloatLit, digitsVal])
    rfl

end Arcus
